import Mathlib

/-!
Shallow embedding of the application-registry module (applications.py).

The module defines a class named FastAPI that stores configuration, routes,
middleware, exception handlers and lifecycle hooks, and lazily computes a
schema document through an external generator function.  External collaborator
values (route descriptors, middleware classes and options, exception keys and
handlers, hooks, dependencies, response classes, mounted apps, host kwargs) are
opaque to the module, so they are collected in a bundle of abstract types; the
external schema generator from fastapi.openapi.utils is passed in as a
function parameter.  Methods that mutate the object are modelled by explicit
state passing: each takes the registry state and returns the updated state
(paired with the returned value where the method returns one).
-/

/-- Bundle of the opaque external types stored by the registry. -/
structure ExtTypes : Type 1 where
  Route : Type
  Tag : Type
  Server : Type
  MwClass : Type
  MwOptions : Type
  ExcKey : Type
  ExcHandler : Type
  Hook : Type
  Dep : Type
  Resp : Type
  OAuth : Type
  Responses : Type
  App : Type
  Kwargs : Type
  JSONResponse : Resp

/-- A schema document: a string-keyed dictionary with opaque payloads kept as
strings.  Python dict truthiness corresponds to non-emptiness of the list. -/
abbrev Schema : Type := List (String × String)

/-- Python truthiness of an optional collection: None and the empty collection
are falsy, a non-empty collection is truthy. -/
def pyTruthyOpt {α : Type} (x : Option (List α)) : Bool :=
  match x with
  | none => false
  | some l => !l.isEmpty

/-- Python `x or d` where `x` is an optional string and `d` a string. -/
def pyOrStr (x : Option String) (d : String) : String :=
  match x with
  | some s => if s == "" then d else s
  | none => d

/-- Python `x or d` where `x` is an optional list and `d` a list. -/
def pyOrList {α : Type} (x : Option (List α)) (d : List α) : List α :=
  match x with
  | some l => if l.isEmpty then d else l
  | none => d

/-- Python `x or d` where both `x` and `d` are optional lists. -/
def pyOrOpt {α : Type} (x : Option (List α)) (d : Option (List α)) :
    Option (List α) :=
  match x with
  | some l => if l.isEmpty then d else some l
  | none => d

/-- Python `x or []`, used by the constructor for optional collections. -/
def orEmpty {α : Type} (x : Option (List α)) : List α :=
  match x with
  | some l => if l.isEmpty then [] else l
  | none => []

/-- A middleware descriptor: a handler class paired with its options, as built
by the Middleware constructor. -/
structure Middleware (E : ExtTypes) : Type where
  middleware_class : E.MwClass
  options : E.MwOptions

/-- A router: a value exposing an ordered list of route descriptors. -/
structure APIRouter (E : ExtTypes) : Type where
  routes : List E.Route

/-- The registry state: the instance attributes assigned by the constructor of
the FastAPI class, in source order. -/
structure FastAPI (E : ExtTypes) : Type where
  debug : Bool
  routes : List E.Route
  title : String
  description : String
  version : String
  openapi_url : Option String
  openapi_tags : Option (List E.Tag)
  servers : Option (List E.Server)
  docs_url : Option String
  redoc_url : Option String
  swagger_ui_oauth2_redirect_url : Option String
  swagger_ui_init_oauth : Option E.OAuth
  middleware : List (Middleware E)
  exception_handlers : List (E.ExcKey × E.ExcHandler)
  on_startup : List E.Hook
  on_shutdown : List E.Hook
  default_response_class : E.Resp
  dependencies : List E.Dep
  openapi_prefix : String
  openapi_schema : Option Schema
  _openapi_schema_cache : Option Schema

/-- The constructor.  Every optional argument is `none` when the caller omits
it; collections guarded by `or` in the source become empty lists. -/
def FastAPI.init (E : ExtTypes)
    (debug : Bool) (routes : Option (List E.Route))
    (title description version : String)
    (openapi_url : Option String) (openapi_tags : Option (List E.Tag))
    (servers : Option (List E.Server))
    (docs_url redoc_url swagger_ui_oauth2_redirect_url : Option String)
    (swagger_ui_init_oauth : Option E.OAuth)
    (middleware : Option (List (Middleware E)))
    (exception_handlers : Option (List (E.ExcKey × E.ExcHandler)))
    (on_startup on_shutdown : Option (List E.Hook))
    (default_response_class : E.Resp)
    (dependencies : Option (List E.Dep))
    ( openapi_prefix : String) : FastAPI E :=
  { debug := debug
    routes := orEmpty routes
    title := title
    description := description
    version := version
    openapi_url := openapi_url
    openapi_tags := openapi_tags
    servers := servers
    docs_url := docs_url
    redoc_url := redoc_url
    swagger_ui_oauth2_redirect_url := swagger_ui_oauth2_redirect_url
    swagger_ui_init_oauth := swagger_ui_init_oauth
    middleware := orEmpty middleware
    exception_handlers := orEmpty exception_handlers
    on_startup := orEmpty on_startup
    on_shutdown := orEmpty on_shutdown
    default_response_class := default_response_class
    dependencies := orEmpty dependencies
    openapi_prefix := openapi_prefix
    openapi_schema := none
    _openapi_schema_cache := none }

/-- Construction with no arguments: every parameter takes its declared
default from the source signature. -/
def FastAPI.initDefault (E : ExtTypes) : FastAPI E :=
  FastAPI.init E false none "FastAPI" "" "0.1.0" (some "/openapi.json") none
    none (some "/docs") (some "/redoc") (some "/docs/oauth2-redirect") none
    none none none none E.JSONResponse none ""

/-- add_middleware: appends a Middleware descriptor built from the class and
its options. -/
def FastAPI.add_middleware {E : ExtTypes} (s : FastAPI E)
    (middleware_class : E.MwClass) (options : E.MwOptions) : FastAPI E :=
  { s with middleware := s.middleware ++ [Middleware.mk middleware_class options] }

/-- add_route: appends the route; the path argument is never read. -/
def FastAPI.add_route {E : ExtTypes} (s : FastAPI E) (path : String)
    (route : E.Route) : FastAPI E :=
  { s with routes := s.routes ++ [route] }

/-- include_router: extends routes with the routes of the router; every
keyword option is accepted and never read. -/
def FastAPI.include_router {E : ExtTypes} (s : FastAPI E) (router : APIRouter E)
    ( prefix_ : String) (tags : Option (List String))
    (dependencies : Option (List E.Dep)) (responses : Option E.Responses)
    (default_response_class : Option E.Resp)
    (callbacks : Option (List E.Route)) (include_in_schema : Bool) :
    FastAPI E :=
  { s with routes := s.routes ++ router.routes }

/-- The argument record handed to the external schema generator. -/
structure OpenapiArgs (E : ExtTypes) : Type where
  title : String
  version : String
  description : String
  routes : List E.Route
  tags : Option (List E.Tag)
  servers : Option (List E.Server)

/-- The override-or-stored-value resolution performed by get_openapi before
calling the external generator: each argument falls back to the stored field
through Python `or`. -/
def FastAPI.resolveArgs {E : ExtTypes} (s : FastAPI E)
    (title version description : Option String)
    (routes : Option (List E.Route)) (tags : Option (List E.Tag))
    (servers : Option (List E.Server)) : OpenapiArgs E :=
  { title := pyOrStr title s.title
    version := pyOrStr version s.version
    description := pyOrStr description s.description
    routes := pyOrList routes s.routes
    tags := pyOrOpt tags s.openapi_tags
    servers := pyOrOpt servers s.servers }

/-- The non-cached branch of get_openapi: call the external generator `gen`
with the resolved arguments, store the result in both cache slots, return it. -/
def FastAPI.computeOpenapi {E : ExtTypes} (gen : OpenapiArgs E → Schema)
    (s : FastAPI E) (title version description : Option String)
    (routes : Option (List E.Route)) (tags : Option (List E.Tag))
    (servers : Option (List E.Server)) : FastAPI E × Schema :=
  let schema := gen (FastAPI.resolveArgs s title version description routes tags servers)
  ({ s with openapi_schema := some schema, _openapi_schema_cache := some schema },
    schema)

/-- get_openapi: if the cache slot is truthy return it unchanged, otherwise
compute, store and return a fresh schema. -/
def FastAPI.get_openapi {E : ExtTypes} (gen : OpenapiArgs E → Schema)
    (s : FastAPI E) (title version description : Option String)
    (routes : Option (List E.Route)) (tags : Option (List E.Tag))
    (servers : Option (List E.Server)) : FastAPI E × Schema :=
  if pyTruthyOpt s._openapi_schema_cache then
    (s, s._openapi_schema_cache.getD [])
  else
    FastAPI.computeOpenapi gen s title version description routes tags servers

/-- openapi: if openapi_schema is falsy, assign it the result of get_openapi
with all-default arguments; return openapi_schema. -/
def FastAPI.openapi {E : ExtTypes} (gen : OpenapiArgs E → Schema) (s : FastAPI E) :
    FastAPI E × Schema :=
  if pyTruthyOpt s.openapi_schema then
    (s, s.openapi_schema.getD [])
  else
    let p := FastAPI.get_openapi gen s none none none none none none
    ({ p.1 with openapi_schema := some p.2 }, p.2)

/-- setup: a stub whose body is pass. -/
def FastAPI.setup {E : ExtTypes} (s : FastAPI E) : FastAPI E := s

/-- mount: a stub whose body is pass. -/
def FastAPI.mount {E : ExtTypes} (s : FastAPI E) (path : String) (app : E.App)
    (name : Option String) : FastAPI E := s

/-- host: a stub whose body is pass. -/
def FastAPI.host {E : ExtTypes} (s : FastAPI E) (host : String) (port : Nat)
    (kwargs : E.Kwargs) : FastAPI E := s

/-- The three mutating operations named by the cache-invalidation claim. -/
inductive MutOp (E : ExtTypes) : Type where
  | addRoute (path : String) (route : E.Route)
  | includeRouter (router : APIRouter E) ( prefix_ : String)
      (tags : Option (List String)) (dependencies : Option (List E.Dep))
      (responses : Option E.Responses)
      (default_response_class : Option E.Resp)
      (callbacks : Option (List E.Route)) (include_in_schema : Bool)
  | addMiddleware (middleware_class : E.MwClass) (options : E.MwOptions)

/-- Apply one mutating operation to the registry state. -/
def applyMut {E : ExtTypes} (s : FastAPI E) : MutOp E → FastAPI E
  | MutOp.addRoute path route => FastAPI.add_route s path route
  | MutOp.includeRouter router p tags deps resps drc cbs iis =>
      FastAPI.include_router s router p tags deps resps drc cbs iis
  | MutOp.addMiddleware cls opts => FastAPI.add_middleware s cls opts

/-- Apply a sequence of mutating operations, first to last. -/
def applyMuts {E : ExtTypes} (s : FastAPI E) (ms : List (MutOp E)) : FastAPI E :=
  ms.foldl applyMut s

/-- The full public contract of the registry, as operations on the state. -/
inductive Op (E : ExtTypes) : Type where
  | addMiddleware (middleware_class : E.MwClass) (options : E.MwOptions)
  | addRoute (path : String) (route : E.Route)
  | includeRouter (router : APIRouter E) ( prefix_ : String)
      (tags : Option (List String)) (dependencies : Option (List E.Dep))
      (responses : Option E.Responses)
      (default_response_class : Option E.Resp)
      (callbacks : Option (List E.Route)) (include_in_schema : Bool)
  | getOpenapi (title version description : Option String)
      (routes : Option (List E.Route)) (tags : Option (List E.Tag))
      (servers : Option (List E.Server))
  | openapi
  | setup
  | mount (path : String) (app : E.App) (name : Option String)
  | host (host : String) (port : Nat) (kwargs : E.Kwargs)

/-- Apply one public operation to the registry state (the schema returned by
the two schema methods is dropped; only the state evolution is kept). -/
def applyOp {E : ExtTypes} (gen : OpenapiArgs E → Schema) (s : FastAPI E) :
    Op E → FastAPI E
  | Op.addMiddleware cls opts => FastAPI.add_middleware s cls opts
  | Op.addRoute path route => FastAPI.add_route s path route
  | Op.includeRouter router p tags deps resps drc cbs iis =>
      FastAPI.include_router s router p tags deps resps drc cbs iis
  | Op.getOpenapi t v d r tg sv => (FastAPI.get_openapi gen s t v d r tg sv).1
  | Op.openapi => (FastAPI.openapi gen s).1
  | Op.setup => FastAPI.setup s
  | Op.mount path app name => FastAPI.mount s path app name
  | Op.host h port kw => FastAPI.host s h port kw

/-- Apply a sequence of public operations, first to last. -/
def applyOps {E : ExtTypes} (gen : OpenapiArgs E → Schema) (s : FastAPI E)
    (ops : List (Op E)) : FastAPI E :=
  ops.foldl (applyOp gen) s

/-- A sequence of add_route calls, modelling repeated invocation. -/
def add_routes {E : ExtTypes} (s : FastAPI E) (calls : List (String × E.Route)) :
    FastAPI E :=
  calls.foldl (fun acc c => FastAPI.add_route acc c.1 c.2) s

/-- A concrete instantiation of the opaque external types, for evaluation. -/
abbrev E0 : ExtTypes :=
  { Route := Nat, Tag := Nat, Server := Nat, MwClass := Nat, MwOptions := Nat
    ExcKey := Nat, ExcHandler := Nat, Hook := Nat, Dep := Nat, Resp := Nat
    OAuth := Nat, Responses := Nat, App := Nat, Kwargs := Nat
    JSONResponse := 0 }

/-- A concrete generator that records the resolved title in the document. -/
def genTitle : OpenapiArgs E0 → Schema :=
  fun a => [("title", a.title)]

/-- A concrete generator that always returns the falsy empty document. -/
def genEmpty : OpenapiArgs E0 → Schema :=
  fun _ => []

/-- A concrete registry whose slots hold a truthy cached document. -/
def cachedReg : FastAPI E0 :=
  { FastAPI.initDefault E0 with
    openapi_schema := some [("title", "T")]
    _openapi_schema_cache := some [("title", "T")] }

/-- A concrete registry whose slots hold the falsy empty document. -/
def falsyReg : FastAPI E0 :=
  { FastAPI.initDefault E0 with
    openapi_schema := some []
    _openapi_schema_cache := some [] }

/-- A concrete sequence of mutating operations. -/
def muts0 : List (MutOp E0) :=
  [MutOp.addRoute "/x" 1,
   MutOp.includeRouter (APIRouter.mk [2, 3]) "/p" none none none none none true,
   MutOp.addMiddleware 4 5]

/-! Helper lemmas about truthiness and the cache slots. -/

theorem pyTruthyOpt_some_of_ne {α : Type} (l : List α) (h : l ≠ []) :
    pyTruthyOpt (some l) = true := by
  cases l with
  | nil => exact absurd rfl h
  | cons a t => rfl

theorem get_openapi_cache_hit {E : ExtTypes} (gen : OpenapiArgs E → Schema)
    (s : FastAPI E) (d : Schema) (hd : s._openapi_schema_cache = some d)
    (hne : d ≠ []) (t v dsc : Option String) (r : Option (List E.Route))
    (tg : Option (List E.Tag)) (sv : Option (List E.Server)) :
    FastAPI.get_openapi gen s t v dsc r tg sv = (s, d) := by
  unfold FastAPI.get_openapi
  rw [hd, pyTruthyOpt_some_of_ne d hne]
  simp

theorem applyMut_cache {E : ExtTypes} (s : FastAPI E) (m : MutOp E) :
    (applyMut s m)._openapi_schema_cache = s._openapi_schema_cache := by
  cases m <;> rfl

theorem applyMuts_cache {E : ExtTypes} (ms : List (MutOp E)) (s : FastAPI E) :
    (applyMuts s ms)._openapi_schema_cache = s._openapi_schema_cache := by
  induction ms generalizing s with
  | nil => rfl
  | cons m tl ih =>
      have h1 : applyMuts s (m :: tl) = applyMuts (applyMut s m) tl := rfl
      rw [h1, ih, applyMut_cache]

/-- Claim C1: once a truthy schema document sits in the cache slot, get_openapi
returns it unchanged for every choice of overrides without touching the state,
and any sequence of add_route, include_router and add_middleware mutations
leaves the cache slot intact, so schema requests after the mutations still
return the originally cached document. -/
theorem get_openapi_cache_never_invalidated {E : ExtTypes}
    (gen : OpenapiArgs E → Schema) (s : FastAPI E) (d : Schema)
    (hd : s._openapi_schema_cache = some d) (hne : d ≠ []) :
    (∀ t v dsc r tg sv, FastAPI.get_openapi gen s t v dsc r tg sv = (s, d)) ∧
    (∀ ms : List (MutOp E),
      (applyMuts s ms)._openapi_schema_cache = some d ∧
      ∀ t v dsc r tg sv,
        FastAPI.get_openapi gen (applyMuts s ms) t v dsc r tg sv =
          (applyMuts s ms, d)) := by
  constructor
  · intro t v dsc r tg sv
    exact get_openapi_cache_hit gen s d hd hne t v dsc r tg sv
  · intro ms
    have hc : (applyMuts s ms)._openapi_schema_cache = some d := by
      rw [applyMuts_cache]; exact hd
    exact ⟨hc, fun t v dsc r tg sv =>
      get_openapi_cache_hit gen _ d hc hne t v dsc r tg sv⟩

/-- Witness for C1 at a concrete registry, generator, overrides and mutation
sequence. -/
theorem get_openapi_cache_never_invalidated_w :
    FastAPI.get_openapi genTitle cachedReg (some "Z") (some "9") none none none
        none = (cachedReg, [("title", "T")]) ∧
    (applyMuts cachedReg muts0)._openapi_schema_cache = some [("title", "T")] ∧
    FastAPI.get_openapi genTitle (applyMuts cachedReg muts0) none none none
        none none none = (applyMuts cachedReg muts0, [("title", "T")]) := by
  have h := get_openapi_cache_never_invalidated genTitle cachedReg
    [("title", "T")] rfl (by decide)
  exact ⟨h.1 (some "Z") (some "9") none none none none,
    (h.2 muts0).1, (h.2 muts0).2 none none none none none none⟩

/-- Claim C2: include_router makes routes equal to the prior routes followed by
the routes of the router in their internal order, and none of the keyword
options alters the merged entries or any other registry field. -/
theorem include_router_appends {E : ExtTypes} (s : FastAPI E)
    (router : APIRouter E) (p : String) (tags : Option (List String))
    (deps : Option (List E.Dep)) (resps : Option E.Responses)
    (drc : Option E.Resp) (cbs : Option (List E.Route)) (iis : Bool) :
    FastAPI.include_router s router p tags deps resps drc cbs iis =
      { s with routes := s.routes ++ router.routes } := rfl

/-- Claim C3: after any sequence of add_route calls the routes field equals the
initial routes followed by the route arguments in call order, and the path
arguments leave every part of the stored state untouched. -/
theorem add_routes_append {E : ExtTypes} (calls : List (String × E.Route))
    (s : FastAPI E) :
    add_routes s calls =
      { s with routes := s.routes ++ calls.map Prod.snd } := by
  induction calls generalizing s with
  | nil => simp [add_routes]
  | cons c tl ih =>
      have h1 : add_routes s (c :: tl) =
          add_routes (FastAPI.add_route s c.1 c.2) tl := rfl
      rw [h1, ih]
      simp [FastAPI.add_route]

/-- Claim C6 counterexample: constructing with no arguments stores the omitted
optional collection openapi_tags as an absent value (none), not as an empty
collection, refuting the final clause of the claim. -/
theorem initDefault_openapi_tags_absent :
    (FastAPI.initDefault E0).openapi_tags = none ∧
    (FastAPI.initDefault E0).openapi_tags ≠ some [] := by
  decide

/-- Claim C6 (amended): construction with no arguments yields empty routes,
middleware, exception_handlers, on_startup, on_shutdown and dependencies, with
both schema slots unset; the omitted optional collections openapi_tags,
servers and swagger_ui_init_oauth remain absent (none). -/
theorem initDefault_collections (E : ExtTypes) :
    (FastAPI.initDefault E).routes = [] ∧
    (FastAPI.initDefault E).middleware = [] ∧
    (FastAPI.initDefault E).exception_handlers = [] ∧
    (FastAPI.initDefault E).on_startup = [] ∧
    (FastAPI.initDefault E).on_shutdown = [] ∧
    (FastAPI.initDefault E).dependencies = [] ∧
    (FastAPI.initDefault E).openapi_schema = none ∧
    (FastAPI.initDefault E)._openapi_schema_cache = none ∧
    (FastAPI.initDefault E).openapi_tags = none ∧
    (FastAPI.initDefault E).servers = none ∧
    (FastAPI.initDefault E).swagger_ui_init_oauth = none :=
  ⟨rfl, rfl, rfl, rfl, rfl, rfl, rfl, rfl, rfl, rfl, rfl⟩

/-- Claim C7: setup, mount and host leave every registry field unchanged for
every argument value and signal no error. -/
theorem stub_methods_noop {E : ExtTypes} (s : FastAPI E) (path : String)
    (app : E.App) (name : Option String) (hst : String) (port : Nat)
    (kwargs : E.Kwargs) :
    FastAPI.setup s = s ∧ FastAPI.mount s path app name = s ∧
      FastAPI.host s hst port kwargs = s :=
  ⟨rfl, rfl, rfl⟩

/-- Claim C10: for each override of get_openapi a supplied falsy value (empty
string or empty sequence) behaves exactly like an absent one: the call is
indistinguishable from the call with that override omitted, so the stored
field reaches the external generator. -/
theorem falsy_overrides_fall_back {E : ExtTypes} (gen : OpenapiArgs E → Schema)
    (s : FastAPI E) (t v dsc : Option String) (r : Option (List E.Route))
    (tg : Option (List E.Tag)) (sv : Option (List E.Server)) :
    FastAPI.get_openapi gen s (some "") v dsc r tg sv =
        FastAPI.get_openapi gen s none v dsc r tg sv ∧
    FastAPI.get_openapi gen s t (some "") dsc r tg sv =
        FastAPI.get_openapi gen s t none dsc r tg sv ∧
    FastAPI.get_openapi gen s t v (some "") r tg sv =
        FastAPI.get_openapi gen s t v none r tg sv ∧
    FastAPI.get_openapi gen s t v dsc (some []) tg sv =
        FastAPI.get_openapi gen s t v dsc none tg sv ∧
    FastAPI.get_openapi gen s t v dsc r (some []) sv =
        FastAPI.get_openapi gen s t v dsc r none sv ∧
    FastAPI.get_openapi gen s t v dsc r tg (some []) =
        FastAPI.get_openapi gen s t v dsc r tg none :=
  ⟨rfl, rfl, rfl, rfl, rfl, rfl⟩

/-! Branch lemmas for the two schema methods. -/

theorem get_openapi_compute {E : ExtTypes} (gen : OpenapiArgs E → Schema)
    (s : FastAPI E) (hc : pyTruthyOpt s._openapi_schema_cache = false)
    (t v dsc : Option String) (r : Option (List E.Route))
    (tg : Option (List E.Tag)) (sv : Option (List E.Server)) :
    FastAPI.get_openapi gen s t v dsc r tg sv =
      ({ s with
          openapi_schema := some (gen (FastAPI.resolveArgs s t v dsc r tg sv)),
          _openapi_schema_cache :=
            some (gen (FastAPI.resolveArgs s t v dsc r tg sv)) },
        gen (FastAPI.resolveArgs s t v dsc r tg sv)) := by
  unfold FastAPI.get_openapi
  rw [hc]
  simp [FastAPI.computeOpenapi]

theorem openapi_truthy {E : ExtTypes} (gen : OpenapiArgs E → Schema)
    (s : FastAPI E) (h : pyTruthyOpt s.openapi_schema = true) :
    FastAPI.openapi gen s = (s, s.openapi_schema.getD []) := by
  unfold FastAPI.openapi
  rw [h]
  simp

theorem openapi_not_truthy {E : ExtTypes} (gen : OpenapiArgs E → Schema)
    (s : FastAPI E) (h : pyTruthyOpt s.openapi_schema = false) :
    FastAPI.openapi gen s =
      ({ (FastAPI.get_openapi gen s none none none none none none).1 with
          openapi_schema :=
            some (FastAPI.get_openapi gen s none none none none none none).2 },
        (FastAPI.get_openapi gen s none none none none none none).2) := by
  unfold FastAPI.openapi
  rw [h]
  simp

theorem resolveArgs_slots {E : ExtTypes} (s : FastAPI E) (o c : Option Schema)
    (t v dsc : Option String) (r : Option (List E.Route))
    (tg : Option (List E.Tag)) (sv : Option (List E.Server)) :
    FastAPI.resolveArgs
        { s with openapi_schema := o, _openapi_schema_cache := c }
        t v dsc r tg sv =
      FastAPI.resolveArgs s t v dsc r tg sv := rfl

/-- Claim C4: on a registry without a truthy cached schema, the title override
is the value handed to the external generator, so with a generator that
records its title argument the returned document carries the override; an
immediately following call with a different title override returns the same
cached document, still carrying the first title. -/
theorem get_openapi_title_override {E : ExtTypes} (gen : OpenapiArgs E → Schema)
    (s : FastAPI E) (x y : String)
    (hc : pyTruthyOpt s._openapi_schema_cache = false) (hx : x ≠ "")
    (hgent : ∀ a, (gen a).lookup "title" = some a.title)
    (hgenne : ∀ a, gen a ≠ []) :
    ((FastAPI.get_openapi gen s (some x) none none none none none).2.lookup
        "title" = some x) ∧
    (FastAPI.get_openapi gen
        (FastAPI.get_openapi gen s (some x) none none none none none).1
        (some y) none none none none none).2 =
      (FastAPI.get_openapi gen s (some x) none none none none none).2 ∧
    (FastAPI.get_openapi gen
        (FastAPI.get_openapi gen s (some x) none none none none none).1
        (some y) none none none none none).2.lookup "title" = some x := by
  have htitle :
      (FastAPI.resolveArgs s (some x) none none none none none).title = x := by
    simp [FastAPI.resolveArgs, pyOrStr, hx]
  have hlook :
      (gen (FastAPI.resolveArgs s (some x) none none none none none)).lookup
        "title" = some x := by
    rw [hgent, htitle]
  have h1 := get_openapi_compute gen s hc (some x) none none none none none
  have h2 := get_openapi_cache_hit gen
    ({ s with
        openapi_schema :=
          some (gen (FastAPI.resolveArgs s (some x) none none none none none)),
        _openapi_schema_cache :=
          some (gen (FastAPI.resolveArgs s (some x) none none none none none)) })
    (gen (FastAPI.resolveArgs s (some x) none none none none none)) rfl
    (hgenne _) (some y) none none none none none
  refine ⟨?_, ?_, ?_⟩
  · rw [h1]
    exact hlook
  · rw [h1]
    rw [h2]
  · rw [h1, h2]
    exact hlook

/-- Witness for C4 at a fresh default registry with a concrete
title-recording generator. -/
theorem get_openapi_title_override_w :
    ((FastAPI.get_openapi genTitle (FastAPI.initDefault E0) (some "X") none
        none none none none).2.lookup "title" = some "X") ∧
    (FastAPI.get_openapi genTitle
        (FastAPI.get_openapi genTitle (FastAPI.initDefault E0) (some "X") none
          none none none none).1
        (some "Y") none none none none none).2 =
      (FastAPI.get_openapi genTitle (FastAPI.initDefault E0) (some "X") none
        none none none none).2 ∧
    (FastAPI.get_openapi genTitle
        (FastAPI.get_openapi genTitle (FastAPI.initDefault E0) (some "X") none
          none none none none).1
        (some "Y") none none none none none).2.lookup "title" = some "X" :=
  get_openapi_title_override genTitle (FastAPI.initDefault E0) "X" "Y" rfl
    (by decide) (fun a => rfl) (fun a => by simp [genTitle])

/-- Claim C5: two successive openapi calls with no intervening mutation return
the same schema document both times. -/
theorem openapi_idempotent {E : ExtTypes} (gen : OpenapiArgs E → Schema)
    (s : FastAPI E) :
    (FastAPI.openapi gen (FastAPI.openapi gen s).1).2 =
      (FastAPI.openapi gen s).2 := by
  cases hob : pyTruthyOpt s.openapi_schema with
  | true =>
      have h1 := openapi_truthy gen s hob
      have hst : (FastAPI.openapi gen s).1 = s := by rw [h1]
      rw [hst]
  | false =>
      cases hcb : pyTruthyOpt s._openapi_schema_cache with
      | true =>
          cases hcc : s._openapi_schema_cache with
          | none => rw [hcc] at hcb; simp [pyTruthyOpt] at hcb
          | some c =>
              have hcne : c ≠ [] := by
                intro hnil
                rw [hcc, hnil] at hcb
                simp [pyTruthyOpt] at hcb
              have hg := get_openapi_cache_hit gen s c hcc hcne
                none none none none none none
              have h1 : FastAPI.openapi gen s =
                  ({ s with openapi_schema := some c }, c) := by
                rw [openapi_not_truthy gen s hob, hg]
              rw [h1]
              have htr : pyTruthyOpt
                  ({ s with openapi_schema := some c } :
                    FastAPI E).openapi_schema = true :=
                pyTruthyOpt_some_of_ne c hcne
              rw [openapi_truthy gen _ htr]
              rfl
      | false =>
          have hg := get_openapi_compute gen s hcb none none none none none none
          have h1 : FastAPI.openapi gen s =
              ({ s with
                  openapi_schema := some (gen (FastAPI.resolveArgs s
                    none none none none none none)),
                  _openapi_schema_cache := some (gen (FastAPI.resolveArgs s
                    none none none none none none)) },
                gen (FastAPI.resolveArgs s none none none none none none)) := by
            rw [openapi_not_truthy gen s hob, hg]
          rw [h1]
          cases hg0 : gen (FastAPI.resolveArgs s none none none none none none) with
          | nil =>
              rw [openapi_not_truthy gen _ (by rfl)]
              rw [get_openapi_compute gen _ (by rfl)
                none none none none none none]
              rw [resolveArgs_slots]
              simp [hg0]
          | cons a l =>
              rw [openapi_truthy gen _ (by rfl)]
              rfl

/-- Claim C9: a falsy (empty) document stored in the slots is never treated as
cached: get_openapi recomputes through the external generator for any
overrides, openapi recomputes through the generator as well, and when the
generator keeps returning the empty document the slots stay falsy, so every
subsequent call recomputes again. -/
theorem falsy_schema_recomputed {E : ExtTypes} (gen : OpenapiArgs E → Schema)
    (s : FastAPI E) (t v dsc : Option String) (r : Option (List E.Route))
    (tg : Option (List E.Tag)) (sv : Option (List E.Server))
    (hc : s._openapi_schema_cache = some []) (ho : s.openapi_schema = some []) :
    (FastAPI.get_openapi gen s t v dsc r tg sv).2 =
        gen (FastAPI.resolveArgs s t v dsc r tg sv) ∧
    (FastAPI.openapi gen s).2 =
        gen (FastAPI.resolveArgs s none none none none none none) ∧
    (gen (FastAPI.resolveArgs s none none none none none none) = [] →
      (FastAPI.openapi gen s).1.openapi_schema = some [] ∧
      (FastAPI.openapi gen s).1._openapi_schema_cache = some []) := by
  have htr : pyTruthyOpt s._openapi_schema_cache = false := by rw [hc]; rfl
  have hto : pyTruthyOpt s.openapi_schema = false := by rw [ho]; rfl
  have hg := get_openapi_compute gen s htr t v dsc r tg sv
  have hg0 := get_openapi_compute gen s htr none none none none none none
  have hop : FastAPI.openapi gen s =
      ({ s with
          openapi_schema := some (gen (FastAPI.resolveArgs s
            none none none none none none)),
          _openapi_schema_cache := some (gen (FastAPI.resolveArgs s
            none none none none none none)) },
        gen (FastAPI.resolveArgs s none none none none none none)) := by
    rw [openapi_not_truthy gen s hto, hg0]
  refine ⟨?_, ?_, ?_⟩
  · rw [hg]
  · rw [hop]
  · intro hz
    rw [hop]
    refine ⟨?_, ?_⟩ <;> simp [hz]

/-- Witness for C9 at a concrete registry holding the falsy empty document and
a generator that always returns the empty document. -/
theorem falsy_schema_recomputed_w :
    (FastAPI.get_openapi genEmpty falsyReg none none none none none none).2 =
        genEmpty (FastAPI.resolveArgs falsyReg none none none none none none) ∧
    (FastAPI.openapi genEmpty falsyReg).2 =
        genEmpty (FastAPI.resolveArgs falsyReg none none none none none none) ∧
    (genEmpty (FastAPI.resolveArgs falsyReg none none none none none none)
        = [] →
      (FastAPI.openapi genEmpty falsyReg).1.openapi_schema = some [] ∧
      (FastAPI.openapi genEmpty falsyReg).1._openapi_schema_cache = some []) :=
  falsy_schema_recomputed genEmpty falsyReg none none none none none none
    rfl rfl

/-! Preservation of the slot-equality invariant by every public operation. -/

theorem applyOp_slots {E : ExtTypes} (gen : OpenapiArgs E → Schema)
    (s : FastAPI E) (op : Op E)
    (hs : s.openapi_schema = s._openapi_schema_cache) :
    (applyOp gen s op).openapi_schema =
      (applyOp gen s op)._openapi_schema_cache := by
  cases op with
  | addMiddleware cls opts => exact hs
  | addRoute path route => exact hs
  | includeRouter router p tags deps resps drc cbs iis => exact hs
  | setup => exact hs
  | mount path app name => exact hs
  | host hst port kw => exact hs
  | getOpenapi t v dsc r tg sv =>
      cases hcb : pyTruthyOpt s._openapi_schema_cache with
      | true =>
          have h1 : applyOp gen s (Op.getOpenapi t v dsc r tg sv) = s := by
            simp [applyOp, FastAPI.get_openapi, hcb]
          rw [h1]
          exact hs
      | false =>
          have h1 := get_openapi_compute gen s hcb t v dsc r tg sv
          simp [applyOp, h1]
  | openapi =>
      cases hob : pyTruthyOpt s.openapi_schema with
      | true =>
          have h1 : applyOp gen s Op.openapi = s := by
            simp [applyOp, openapi_truthy gen s hob]
          rw [h1]
          exact hs
      | false =>
          have h1 : applyOp gen s Op.openapi =
              { (FastAPI.get_openapi gen s none none none none none none).1 with
                openapi_schema :=
                  some (FastAPI.get_openapi gen s none none none none none
                    none).2 } := by
            simp [applyOp, openapi_not_truthy gen s hob]
          rw [h1]
          cases hcb : pyTruthyOpt s._openapi_schema_cache with
          | true =>
              cases hcc : s._openapi_schema_cache with
              | none => rw [hcc] at hcb; simp [pyTruthyOpt] at hcb
              | some c =>
                  have hcne : c ≠ [] := by
                    intro hnil
                    rw [hcc, hnil] at hcb
                    simp [pyTruthyOpt] at hcb
                  rw [get_openapi_cache_hit gen s c hcc hcne
                    none none none none none none]
                  exact hcc.symm
          | false =>
              rw [get_openapi_compute gen s hcb none none none none none none]

theorem applyOps_slots {E : ExtTypes} (gen : OpenapiArgs E → Schema)
    (ops : List (Op E)) (s : FastAPI E)
    (hs : s.openapi_schema = s._openapi_schema_cache) :
    (applyOps gen s ops).openapi_schema =
      (applyOps gen s ops)._openapi_schema_cache := by
  induction ops generalizing s with
  | nil => exact hs
  | cons op tl ih =>
      have h1 : applyOps gen s (op :: tl) =
          applyOps gen (applyOp gen s op) tl := rfl
      rw [h1]
      exact ih _ (applyOp_slots gen s op hs)

/-- Claim C8: starting from any construction of the registry, after any
sequence of public operations the two cache slots hold the same optional
schema document, so no behavior can depend on them differing. -/
theorem cache_slots_agree {E : ExtTypes} (gen : OpenapiArgs E → Schema)
    (debug : Bool) (routes0 : Option (List E.Route))
    (title description version : String) (openapi_url : Option String)
    (openapi_tags : Option (List E.Tag)) (servers0 : Option (List E.Server))
    (docs_url redoc_url sw_redirect : Option String)
    (sw_oauth : Option E.OAuth) (middleware0 : Option (List (Middleware E)))
    (exc : Option (List (E.ExcKey × E.ExcHandler)))
    (on_startup0 on_shutdown0 : Option (List E.Hook)) (drc : E.Resp)
    (deps : Option (List E.Dep)) (opx : String) (ops : List (Op E)) :
    (applyOps gen (FastAPI.init E debug routes0 title description version
        openapi_url openapi_tags servers0 docs_url redoc_url sw_redirect
        sw_oauth middleware0 exc on_startup0 on_shutdown0 drc deps opx)
        ops).openapi_schema =
      (applyOps gen (FastAPI.init E debug routes0 title description version
        openapi_url openapi_tags servers0 docs_url redoc_url sw_redirect
        sw_oauth middleware0 exc on_startup0 on_shutdown0 drc deps opx)
        ops)._openapi_schema_cache :=
  applyOps_slots gen ops _ rfl
